import Mathlib

set_option maxRecDepth 100000

/-!
Shallow embedding of `render_breadboard_svg.py` (breadboard SVG renderer).

Modelling conventions:
* All pixel quantities are modelled in `ℤ`.  The Python source computes with
  floats, but every arithmetic operation it performs on the quantities that
  appear below is exact on integers: the only divisions are halvings of even
  quantities (`CELL_W`, `CELL_H`, the group-block slack `(columns-59)*CELL_W`,
  and midpoints of same-parity coordinates), so the float results coincide
  with the integer results.  `CELL_H*0.5` and `CELL_H*1.5` in the source are
  written `CELL_H/2` and `CELL_H*3/2` here (both exact: 9 and 27).
* Pad identifier strings are modelled as lists of character code points
  (`List ℕ`).  `str.strip` / `str.upper` / `int(...)` are modelled on ASCII:
  whitespace is the ASCII whitespace set, `upper` maps `a`..`z` to `A`..`Z`,
  and `int` accepts an optional sign followed by decimal digits, with
  surrounding whitespace.  `codes` converts a literal string to this form.
* Python exceptions (`KeyError` from `ROW_INDEX[row]`, `ValueError` from
  `int(...)`, `IndexError` from `pad[0]`) are modelled by `Option`: `none`
  means the corresponding call raises.
* The process-wide global `board_height` (assigned by `render_board`, read by
  `rails_y_positions(top=False)`) is modelled as explicitly threaded state of
  type `Option ℤ` (`none` = the global has not been assigned yet, so reading
  it raises `NameError`).  `render_board` takes the incoming state and returns
  the outgoing state alongside its result, exactly mirroring the assignment
  at the top of the Python function.
* SVG output is modelled as a list of primitives (`Prim`), one constructor per
  SVG helper in the source (`hole`, line, `tx`, `tx_rot`, rect, header), with
  the same arguments (colors and anchors as strings).  String concatenation
  order in the source is list order here.
-/

-- Geometry constants (px), from the top of the source file.

def CELL_W : ℤ := 18
def CELL_H : ℤ := 18
def MARGIN_X : ℤ := 48
def MARGIN_Y : ℤ := 36
def RAIL_GAP : ℤ := 8
def TRENCH_H : ℤ := 22

def TOP_RAIL_OFFSET : ℤ := -6
def TOP_RAIL_CLEARANCE : ℤ := 12
def BOTTOM_RAIL_OFFSET : ℤ := 2
def RAIL_LINE_WIDTH : ℤ := 3
def RAIL_HOLE_OFFSET : ℤ := 0
def RAIL_LINE_OFFSET : ℤ := 6

def TOP_RAIL_GAP : ℤ := 0
def BOTTOM_RAIL_GAP : ℤ := 0

def RAIL_GROUPS : ℕ := 10
def RAIL_GROUP_SIZE : ℕ := 5
def RAIL_GROUP_GAP_COLS : ℕ := 1

def NUMBER_EVERY : ℕ := 5
def NUM_FONT_SIZE : ℤ := 10
def NUM_TOP_OFFSET : ℤ := 10
def NUM_BOTTOM_OFFSET : ℤ := 10

def NUMBER_X_OFFSET_COLS : ℤ := -1

def ROW_LABEL_EDGE_OFFSET : ℤ := 10
def MARKER_EDGE_OFFSET : ℤ := 10

/-- Source `ROW_LABELS = ['A',..,'J']`, as character code points. -/
def ROW_LABELS : List ℕ := [65, 66, 67, 68, 69, 70, 71, 72, 73, 74]

/-- Source `ROW_INDEX = {ch: i for i, ch in enumerate(ROW_LABELS)}`; dictionary lookup
`ROW_INDEX[row]` is `none` (KeyError) for an unknown row letter. -/
def ROW_INDEX (c : ℕ) : Option ℕ :=
  List.findIdx? (fun a => a == c) ROW_LABELS

-- Python string-handling model (code points).

/-- ASCII whitespace, the characters `str.strip()` removes. -/
def isPySpace (c : ℕ) : Bool :=
  c == 32 || c == 9 || c == 10 || c == 13 || c == 11 || c == 12

/-- One character of `str.upper()` (ASCII): `a`..`z` map to `A`..`Z`. -/
def upperChar (c : ℕ) : ℕ :=
  if 97 ≤ c ∧ c ≤ 122 then c - 32 else c

/-- Python `s.upper()`. -/
def pyUpper (l : List ℕ) : List ℕ := l.map upperChar

/-- Python `s.strip()`: drop whitespace from the front, then from the back. -/
def pyStrip (l : List ℕ) : List ℕ :=
  (((l.dropWhile isPySpace).reverse).dropWhile isPySpace).reverse

/-- Decimal digit test. -/
def isDigitCode (c : ℕ) : Bool := decide (48 ≤ c ∧ c ≤ 57)

/-- Value of a nonempty all-digit string; `none` otherwise. -/
def digitsVal? (l : List ℕ) : Option ℕ :=
  if !l.isEmpty && l.all isDigitCode then
    some (l.foldl (fun a c => 10 * a + (c - 48)) 0)
  else none

/-- Python `int(s)`: strips whitespace, accepts an optional `+`/`-` sign followed by
decimal digits; `none` models `ValueError`. -/
def pyInt? (s : List ℕ) : Option ℤ :=
  match pyStrip s with
  | 43 :: rest => (digitsVal? rest).map Int.ofNat
  | 45 :: rest => (digitsVal? rest).map (fun n => -(n : ℤ))
  | t => (digitsVal? t).map Int.ofNat

/-- Code points of a literal string (for concrete test inputs). -/
def codes (s : String) : List ℕ := s.toList.map Char.toNat

/-- Python `s.lower()` for component-type strings (ASCII). -/
def py_lower (s : String) : String := String.mk (s.toList.map Char.toLower)

-- SVG primitives, one constructor per emission helper in the source.

/-- A graphic primitive of the drawing: `hole(x,y)` (rounded-square hole
centered at `(x,y)`), an SVG line with stroke color and width, `tx` (plain
text), `tx_rot` (text rotated about its anchor), a plain/rounded rect with
fill, and the `svg_header`. -/
inductive Prim where
  | hole (x y : ℤ)
  | line (x1 y1 x2 y2 : ℤ) (stroke : String) (strokeWidth : ℤ)
  | text (x y : ℤ) (t : String) (size : ℤ) (anchor : String) (fill : String)
  | textRot (x y : ℤ) (t : String) (angle : ℤ) (size : ℤ) (fill : String)
  | rect (x y w h rx : ℤ) (fill : String)
  | svgHeader (w h : ℤ)
deriving DecidableEq, Repr

-- Grid geometry model.

/-- Source `col_to_x(col) = MARGIN_X + col*CELL_W`. -/
def col_to_x (col : ℤ) : ℤ := MARGIN_X + col * CELL_W

/-- Source `middle_row_y(row_idx, top_rails)`: y of middle-field row `row_idx`
(0–4 = bank A–E, 5–9 = bank F–J, separated by the trench). -/
def middle_row_y (row_idx : ℕ) (top_rails : Bool) : ℤ :=
  let y0 : ℤ :=
    MARGIN_Y + (if top_rails then CELL_H * 2 + TOP_RAIL_GAP + TOP_RAIL_CLEARANCE else 0)
  if row_idx ≤ 4 then
    y0 + (row_idx : ℤ) * CELL_H
  else
    y0 + 5 * CELL_H + TRENCH_H + ((row_idx : ℤ) - 5) * CELL_H

/-- Source `rails_y_positions(top)`: centers of the `+` and `-` rail hole rows.
The bottom block reads the global `board_height` (the threaded `bh` state);
`none` models the `NameError` when it has not been assigned. -/
def rails_y_positions (bh : Option ℤ) (top : Bool) : Option (ℤ × ℤ) :=
  if top then
    let gap := TOP_RAIL_GAP
    let base := MARGIN_Y + TOP_RAIL_OFFSET
    some (base + CELL_H / 2, base + CELL_H * 3 / 2 + gap)
  else
    match bh with
    | none => none
    | some board_height =>
      let gap := BOTTOM_RAIL_GAP
      let base := board_height - MARGIN_Y - (CELL_H * 2 + gap) + BOTTOM_RAIL_OFFSET
      some (base + CELL_H / 2, base + CELL_H * 3 / 2 + gap)

/-- Source `draw_grouped_rail_holes(columns, y_center)`: 10 groups of 5 rail holes
with a 1-column blank gap between groups.  The mutable cursor `x` of the
source loop (start `left_px`, advanced by `(S+Gc)*CELL_W` after each
non-final group) is written in closed form: at group `g` it equals
`left_px + g*(S+Gc)*CELL_W`.  Each group emits holes at `x + (i+1)*CELL_W`,
`i = 0..4`. -/
def draw_grouped_rail_holes (columns : ℕ) (y_center : ℤ) : List Prim :=
  let total_group_cols : ℕ :=
    RAIL_GROUPS * RAIL_GROUP_SIZE + (RAIL_GROUPS - 1) * RAIL_GROUP_GAP_COLS
  let total_width_px : ℤ := (columns : ℤ) * CELL_W
  let groups_width_px : ℤ := (total_group_cols : ℤ) * CELL_W
  let left_px : ℤ := MARGIN_X + (total_width_px - groups_width_px) / 2
  (List.range RAIL_GROUPS).flatMap fun g =>
    (List.range RAIL_GROUP_SIZE).map fun i =>
      Prim.hole
        (left_px + (g : ℤ) * (((RAIL_GROUP_SIZE : ℤ) + (RAIL_GROUP_GAP_COLS : ℤ)) * CELL_W)
          + ((i : ℤ) + 1) * CELL_W)
        y_center

/-- Source `draw_rails(columns, top)`: the two colored rail lines, the four `+`/`–`
markers, then the two grouped hole rows. -/
def draw_rails (columns : ℕ) (bh : Option ℤ) (top : Bool) : Option (List Prim) :=
  match rails_y_positions bh top with
  | none => none
  | some (y_plus, y_minus) =>
    let width : ℤ := (columns : ℤ) * CELL_W
    let x1 : ℤ := MARGIN_X - 18
    let x2 : ℤ := MARGIN_X - 18 + width + 36
    let x_left_mark : ℤ := MARGIN_X - MARKER_EDGE_OFFSET
    let x_right_mark : ℤ := MARGIN_X + (columns : ℤ) * CELL_W + MARKER_EDGE_OFFSET
    some
      ([Prim.line x1 (y_plus - RAIL_LINE_OFFSET) x2 (y_plus - RAIL_LINE_OFFSET)
          "#e34444" RAIL_LINE_WIDTH,
        Prim.line x1 (y_minus + RAIL_LINE_OFFSET) x2 (y_minus + RAIL_LINE_OFFSET)
          "#2a6de0" RAIL_LINE_WIDTH,
        Prim.text x_left_mark (y_plus + 4) "+" 14 "middle" "#e34444",
        Prim.text x_left_mark (y_minus + 4) "–" 14 "middle" "#2a6de0",
        Prim.text x_right_mark (y_plus + 4) "+" 14 "middle" "#e34444",
        Prim.text x_right_mark (y_minus + 4) "–" 14 "middle" "#2a6de0"]
       ++ draw_grouped_rail_holes columns (y_plus + RAIL_HOLE_OFFSET)
       ++ draw_grouped_rail_holes columns (y_minus + RAIL_HOLE_OFFSET))

/-- Source `draw_row_labels(columns, left, right)`: rotated row letters A–J at both
field edges; every call site of `middle_row_y` passes `top_rails=True`. -/
def draw_row_labels (columns : ℕ) (left right : Bool) : List Prim :=
  let x_left : ℤ := MARGIN_X - ROW_LABEL_EDGE_OFFSET
  let x_right : ℤ := MARGIN_X + (columns : ℤ) * CELL_W + ROW_LABEL_EDGE_OFFSET
  let row_str : ℕ → String := fun i => String.mk [Char.ofNat (ROW_LABELS.getD i 0)]
  ((List.range 5).flatMap fun i =>
    let y := middle_row_y i true
    (if left then [Prim.textRot x_left y (row_str i) 90 11 "#333"] else [])
      ++ (if right then [Prim.textRot x_right y (row_str i) 90 11 "#333"] else []))
  ++ ((List.range 5).flatMap fun i =>
    let y := middle_row_y (i + 5) true
    (if left then [Prim.textRot x_left y (row_str (i + 5)) 90 11 "#333"] else [])
      ++ (if right then [Prim.textRot x_right y (row_str (i + 5)) 90 11 "#333"] else []))

/-- Source `draw_column_numbers(columns)`: rotated numbers below the top blue line
and above the bottom red line; positions walk left to right at columns
`(i+1)*NUMBER_EVERY + NUMBER_X_OFFSET_COLS` while displayed values decrease
`start, start-5, ...`.  Reads the `board_height` state via
`rails_y_positions(top=False)`. -/
def draw_column_numbers (columns : ℕ) (bh : Option ℤ) : Option (List Prim) :=
  match rails_y_positions bh true, rails_y_positions bh false with
  | some (_, y_top_minus), some (y_bot_plus, _) =>
    let y_top_blue_line := y_top_minus + RAIL_LINE_OFFSET
    let y_bottom_red_line := y_bot_plus - RAIL_LINE_OFFSET
    let y_top_labels := y_top_blue_line + NUM_TOP_OFFSET
    let y_bottom_labels := y_bottom_red_line - NUM_BOTTOM_OFFSET
    let start := (columns / NUMBER_EVERY) * NUMBER_EVERY
    let count := start / NUMBER_EVERY
    some <| (List.range count).flatMap fun i =>
      let col := (i + 1) * NUMBER_EVERY
      let label := start - i * NUMBER_EVERY
      let x := col_to_x ((col : ℤ) + NUMBER_X_OFFSET_COLS)
      [Prim.textRot x y_top_labels (toString label) 90 NUM_FONT_SIZE "#333",
       Prim.textRot x y_bottom_labels (toString label) 90 NUM_FONT_SIZE "#333"]
  | _, _ => none

/-- Source `draw_middle(columns)`: rows A–E of holes, the central trench rect,
rows F–J of holes, then the tick marks at every 5th column.  All row
positions use `middle_row_y(i, top_rails=True)`. -/
def draw_middle (columns : ℕ) : List Prim :=
  ((List.range 5).flatMap fun i =>
    (List.range columns).map fun c =>
      Prim.hole (col_to_x ((c : ℤ) + 1)) (middle_row_y i true))
  ++ [Prim.rect (MARGIN_X - 24) (middle_row_y 4 true + CELL_H / 2)
        ((columns : ℤ) * CELL_W + 48) TRENCH_H 6 "#f0f2f5"]
  ++ ((List.range 5).flatMap fun i =>
    (List.range columns).map fun c =>
      Prim.hole (col_to_x ((c : ℤ) + 1)) (middle_row_y (i + 5) true))
  ++ ((List.range (columns / 5)).map fun k =>
    Prim.line (col_to_x ((5 * (k + 1) : ℕ) : ℤ)) (MARGIN_Y - 4)
      (col_to_x ((5 * (k + 1) : ℕ) : ℤ)) (MARGIN_Y + 2) "#bbb" 1)

-- Pad resolution.

/-- Resolution step of `pad_to_coords` after normalization: `row = pad[0]`
(IndexError on empty), `col = int(pad[1:])` (ValueError), `x = col_to_x(col)`,
`y = middle_row_y(ROW_INDEX[row], top_rails=True)` (KeyError on unknown row).
No range check of `col` against the board's column count is performed. -/
def pad_resolve (p : List ℕ) : Option (ℤ × ℤ) :=
  match p with
  | [] => none
  | r :: rest =>
    match pyInt? rest with
    | none => none
    | some col =>
      let x := col_to_x col
      match ROW_INDEX r with
      | none => none
      | some idx => some (x, middle_row_y idx true)

/-- Source `pad_to_coords(pad)`: `pad = pad.strip().upper()` then resolve. -/
def pad_to_coords (pad : List ℕ) : Option (ℤ × ℤ) :=
  pad_resolve (pyUpper (pyStrip pad))

/-- Source `draw_resistor(p1, p2, label)`: a straight connector line between the two
pad centers plus a text label at the midpoint nudged up by 10. -/
def draw_resistor (p1 p2 : List ℕ) (label : String) : Option (List Prim) :=
  match pad_to_coords p1 with
  | none => none
  | some (x1, y1) =>
    match pad_to_coords p2 with
    | none => none
    | some (x2, y2) =>
      let midx := (x1 + x2) / 2
      let midy := (y1 + y2) / 2 - 10
      some [Prim.line x1 y1 x2 y2 "#9c642b" 3,
            Prim.text midx midy (if label = "" then "R" else label) 11 "middle" "#333"]

-- Board render.

/-- The five appended part groups of `render_board`, in draw order (the
header and background rect are added by `parts_flat`). -/
structure RenderParts where
  railsTop : List Prim
  colNumbers : List Prim
  middle : List Prim
  rowLabels : List Prim
  railsBottom : List Prim
deriving DecidableEq, Repr

/-- Source `render_board(columns, rail_top, rail_bottom)`.  Accumulates the canvas
height exactly as the source does, assigns the global `board_height`
(returned as the outgoing state) before emitting anything, then draws:
top rails (if any), column numbers, middle field, row labels, bottom rails
(if any).  The incoming state `bh` is the value of the global before the
call; the function overwrites it without reading it. -/
def render_board (columns : ℕ) (rail_top rail_bottom : Bool) (bh : Option ℤ) :
    Option (ℤ × ℤ × RenderParts) × Option ℤ :=
  let h1 : ℤ := MARGIN_Y
  let h2 : ℤ := if rail_top then h1 + (CELL_H * 2 + RAIL_GAP) else h1
  let h3 : ℤ := h2 + (10 * CELL_H + TRENCH_H)
  let h4 : ℤ := if rail_bottom then h3 + (CELL_H * 2 + RAIL_GAP) else h3
  let height : ℤ := h4 + MARGIN_Y
  let width : ℤ := MARGIN_X + (columns : ℤ) * CELL_W + MARGIN_X
  let s : Option ℤ := some height
  let top? : Option (List Prim) :=
    if rail_top then draw_rails columns s true else some []
  let bot? : Option (List Prim) :=
    if rail_bottom then draw_rails columns s false else some []
  match top?, draw_column_numbers columns s, bot? with
  | some rt, some nums, some rb =>
    (some (width, height,
       { railsTop := rt
         colNumbers := nums
         middle := draw_middle columns
         rowLabels := draw_row_labels columns true true
         railsBottom := rb }), s)
  | _, _, _ => (none, s)

/-- Flat primitive list of the board SVG: header, background, then the five
part groups in draw order. -/
def parts_flat (w h : ℤ) (p : RenderParts) : List Prim :=
  [Prim.svgHeader w h, Prim.rect 0 0 w h 0 "#fbfbfb"]
    ++ p.railsTop ++ p.colNumbers ++ p.middle ++ p.rowLabels ++ p.railsBottom

-- Input configuration and the main loop.

/-- One entry of the `components` list: `{type, pins: [pad, pad], value}`. -/
structure Component where
  type_ : String
  pins : List ℕ × List ℕ
  value : String

/-- The component loop of `main`: `typ = comp["type"].lower()`; only
`"resistor"` emits anything, every other type is passed over. -/
def comp_svg : List Component → Option (List Prim)
  | [] => some []
  | c :: cs =>
    if py_lower c.type_ = "resistor" then
      match draw_resistor c.pins.1 c.pins.2 c.value with
      | none => none
      | some r => (comp_svg cs).map fun t => r ++ t
    else comp_svg cs

/-- The board section of the input document. -/
structure InputConfig where
  columns : ℕ
  rail_top : Bool
  rail_bottom : Bool
  components : List Component

/-- Function `main` without the file plumbing: render the board (the global
`board_height` is unset at process start, hence state `none`), then build the
component overlays. -/
def main_render (cfg : InputConfig) : Option (ℤ × ℤ × RenderParts × List Prim) :=
  match (render_board cfg.columns cfg.rail_top cfg.rail_bottom none).fst with
  | none => none
  | some (w, h, parts) =>
    match comp_svg cfg.components with
    | none => none
    | some cs => some (w, h, parts, cs)

/-- All primitives of the generated document: the board SVG followed by the
component overlay primitives, in emission order. -/
def doc_prims (d : ℤ × ℤ × RenderParts × List Prim) : List Prim :=
  parts_flat d.1 d.2.1 d.2.2.1 ++ d.2.2.2

-- Observation helpers used by the claims.

/-- x-coordinate stored in a hole primitive (0 for other primitives). -/
def holeX : Prim → ℤ
  | Prim.hole x _ => x
  | _ => 0

/-- Hole count of a primitive list. -/
def countHoles (l : List Prim) : ℕ :=
  l.countP fun p => match p with | Prim.hole _ _ => true | _ => false

/-- Connector-line test: the line emitted by `draw_resistor` (brown stroke,
width 3); no other emission site uses this stroke. -/
def is_connector (p : Prim) : Bool :=
  match p with
  | Prim.line _ _ _ _ stroke w => stroke == "#9c642b" && w == 3
  | _ => false

/-- The x-coordinates of the holes emitted for one rail row, in emission
(left-to-right) order. -/
def railX (columns : ℕ) (y : ℤ) : List ℤ :=
  (draw_grouped_rail_holes columns y).map holeX

-- Helper lemmas: Python string normalization.

lemma isPySpace_upperChar (c : ℕ) : isPySpace (upperChar c) = isPySpace c := by
  rw [Bool.eq_iff_iff]
  unfold upperChar isPySpace
  split <;> simp only [Bool.or_eq_true, beq_iff_eq] <;> omega

lemma upperChar_idem (c : ℕ) : upperChar (upperChar c) = upperChar c := by
  unfold upperChar
  split <;> (try split) <;> omega

lemma dropWhile_pyUpper (l : List ℕ) :
    (l.map upperChar).dropWhile isPySpace = (l.dropWhile isPySpace).map upperChar := by
  induction l with
  | nil => rfl
  | cons a t ih =>
    simp only [List.map_cons, List.dropWhile_cons, isPySpace_upperChar]
    by_cases h : isPySpace a = true
    · simp [h, ih]
    · simp [h]

lemma pyStrip_pyUpper (l : List ℕ) : pyStrip (pyUpper l) = pyUpper (pyStrip l) := by
  unfold pyStrip pyUpper
  rw [dropWhile_pyUpper, ← List.map_reverse, dropWhile_pyUpper, ← List.map_reverse]

lemma pyUpper_idem (l : List ℕ) : pyUpper (pyUpper l) = pyUpper l := by
  induction l <;> simp_all [pyUpper, upperChar_idem]

lemma exists_dropWhile_append {α : Type} (p : α → Bool) (l : List α) :
    ∃ t, l = t ++ l.dropWhile p := by
  induction l with
  | nil => exact ⟨[], rfl⟩
  | cons a s ih =>
    by_cases h : p a = true
    · obtain ⟨t, ht⟩ := ih
      exact ⟨a :: t, by rw [List.dropWhile_cons, if_pos h, List.cons_append, ← ht]⟩
    · exact ⟨[], by rw [List.dropWhile_cons, if_neg h, List.nil_append]⟩

lemma dropWhile_head_not {α : Type} (p : α → Bool) (l : List α) (a : α) (t : List α)
    (h : l.dropWhile p = a :: t) : p a = false := by
  induction l with
  | nil => simp at h
  | cons b s ih =>
    rw [List.dropWhile_cons] at h
    cases hb : p b with
    | true => rw [hb] at h; simp at h; exact ih h
    | false => rw [hb] at h; simp at h; obtain ⟨rfl, rfl⟩ := h; exact hb

lemma dropWhile_eq_self_of_head {α : Type} (p : α → Bool) (l : List α)
    (h : ∀ a t, l = a :: t → p a = false) : l.dropWhile p = l := by
  cases l with
  | nil => rfl
  | cons a t => rw [List.dropWhile_cons, h a t rfl]; simp

lemma pyStrip_idem (l : List ℕ) : pyStrip (pyStrip l) = pyStrip l := by
  obtain ⟨t, ht⟩ := exists_dropWhile_append isPySpace (l.dropWhile isPySpace).reverse
  have hA : l.dropWhile isPySpace
      = ((l.dropWhile isPySpace).reverse.dropWhile isPySpace).reverse ++ t.reverse := by
    have h2 := congrArg List.reverse ht
    rwa [List.reverse_reverse, List.reverse_append] at h2
  have h1 : (((l.dropWhile isPySpace).reverse.dropWhile isPySpace).reverse).dropWhile isPySpace
      = ((l.dropWhile isPySpace).reverse.dropWhile isPySpace).reverse := by
    apply dropWhile_eq_self_of_head
    intro a s hs
    apply dropWhile_head_not isPySpace l a (s ++ t.reverse)
    rw [hA, hs, List.cons_append]
  have h2 : ((l.dropWhile isPySpace).reverse.dropWhile isPySpace).dropWhile isPySpace
      = (l.dropWhile isPySpace).reverse.dropWhile isPySpace := by
    apply dropWhile_eq_self_of_head
    intro a s hs
    exact dropWhile_head_not isPySpace (l.dropWhile isPySpace).reverse a s hs
  show pyStrip (((l.dropWhile isPySpace).reverse.dropWhile isPySpace).reverse) = _
  unfold pyStrip
  rw [h1, List.reverse_reverse, h2]

/-- Normalization `s.strip().upper()` is idempotent. -/
lemma pyNorm_idem (l : List ℕ) :
    pyUpper (pyStrip (pyUpper (pyStrip l))) = pyUpper (pyStrip l) := by
  rw [pyStrip_pyUpper, pyStrip_idem, pyUpper_idem]

-- Helper lemmas: the rail-hole list in explicit form.

/-- The 50 rail holes of one rail row, written out: group `g`, hole `i` sits at
`left_px + (6*g + i + 1) * CELL_W`. -/
lemma draw_grouped_eq (columns : ℕ) (y : ℤ) :
    draw_grouped_rail_holes columns y =
      [Prim.hole (48 + ((columns : ℤ) * 18 - 1062) / 2 + 18) y,
       Prim.hole (48 + ((columns : ℤ) * 18 - 1062) / 2 + 36) y,
       Prim.hole (48 + ((columns : ℤ) * 18 - 1062) / 2 + 54) y,
       Prim.hole (48 + ((columns : ℤ) * 18 - 1062) / 2 + 72) y,
       Prim.hole (48 + ((columns : ℤ) * 18 - 1062) / 2 + 90) y,
       Prim.hole (48 + ((columns : ℤ) * 18 - 1062) / 2 + 126) y,
       Prim.hole (48 + ((columns : ℤ) * 18 - 1062) / 2 + 144) y,
       Prim.hole (48 + ((columns : ℤ) * 18 - 1062) / 2 + 162) y,
       Prim.hole (48 + ((columns : ℤ) * 18 - 1062) / 2 + 180) y,
       Prim.hole (48 + ((columns : ℤ) * 18 - 1062) / 2 + 198) y,
       Prim.hole (48 + ((columns : ℤ) * 18 - 1062) / 2 + 234) y,
       Prim.hole (48 + ((columns : ℤ) * 18 - 1062) / 2 + 252) y,
       Prim.hole (48 + ((columns : ℤ) * 18 - 1062) / 2 + 270) y,
       Prim.hole (48 + ((columns : ℤ) * 18 - 1062) / 2 + 288) y,
       Prim.hole (48 + ((columns : ℤ) * 18 - 1062) / 2 + 306) y,
       Prim.hole (48 + ((columns : ℤ) * 18 - 1062) / 2 + 342) y,
       Prim.hole (48 + ((columns : ℤ) * 18 - 1062) / 2 + 360) y,
       Prim.hole (48 + ((columns : ℤ) * 18 - 1062) / 2 + 378) y,
       Prim.hole (48 + ((columns : ℤ) * 18 - 1062) / 2 + 396) y,
       Prim.hole (48 + ((columns : ℤ) * 18 - 1062) / 2 + 414) y,
       Prim.hole (48 + ((columns : ℤ) * 18 - 1062) / 2 + 450) y,
       Prim.hole (48 + ((columns : ℤ) * 18 - 1062) / 2 + 468) y,
       Prim.hole (48 + ((columns : ℤ) * 18 - 1062) / 2 + 486) y,
       Prim.hole (48 + ((columns : ℤ) * 18 - 1062) / 2 + 504) y,
       Prim.hole (48 + ((columns : ℤ) * 18 - 1062) / 2 + 522) y,
       Prim.hole (48 + ((columns : ℤ) * 18 - 1062) / 2 + 558) y,
       Prim.hole (48 + ((columns : ℤ) * 18 - 1062) / 2 + 576) y,
       Prim.hole (48 + ((columns : ℤ) * 18 - 1062) / 2 + 594) y,
       Prim.hole (48 + ((columns : ℤ) * 18 - 1062) / 2 + 612) y,
       Prim.hole (48 + ((columns : ℤ) * 18 - 1062) / 2 + 630) y,
       Prim.hole (48 + ((columns : ℤ) * 18 - 1062) / 2 + 666) y,
       Prim.hole (48 + ((columns : ℤ) * 18 - 1062) / 2 + 684) y,
       Prim.hole (48 + ((columns : ℤ) * 18 - 1062) / 2 + 702) y,
       Prim.hole (48 + ((columns : ℤ) * 18 - 1062) / 2 + 720) y,
       Prim.hole (48 + ((columns : ℤ) * 18 - 1062) / 2 + 738) y,
       Prim.hole (48 + ((columns : ℤ) * 18 - 1062) / 2 + 774) y,
       Prim.hole (48 + ((columns : ℤ) * 18 - 1062) / 2 + 792) y,
       Prim.hole (48 + ((columns : ℤ) * 18 - 1062) / 2 + 810) y,
       Prim.hole (48 + ((columns : ℤ) * 18 - 1062) / 2 + 828) y,
       Prim.hole (48 + ((columns : ℤ) * 18 - 1062) / 2 + 846) y,
       Prim.hole (48 + ((columns : ℤ) * 18 - 1062) / 2 + 882) y,
       Prim.hole (48 + ((columns : ℤ) * 18 - 1062) / 2 + 900) y,
       Prim.hole (48 + ((columns : ℤ) * 18 - 1062) / 2 + 918) y,
       Prim.hole (48 + ((columns : ℤ) * 18 - 1062) / 2 + 936) y,
       Prim.hole (48 + ((columns : ℤ) * 18 - 1062) / 2 + 954) y,
       Prim.hole (48 + ((columns : ℤ) * 18 - 1062) / 2 + 990) y,
       Prim.hole (48 + ((columns : ℤ) * 18 - 1062) / 2 + 1008) y,
       Prim.hole (48 + ((columns : ℤ) * 18 - 1062) / 2 + 1026) y,
       Prim.hole (48 + ((columns : ℤ) * 18 - 1062) / 2 + 1044) y,
       Prim.hole (48 + ((columns : ℤ) * 18 - 1062) / 2 + 1062) y] := by
  simp only [draw_grouped_rail_holes, RAIL_GROUPS, RAIL_GROUP_SIZE, RAIL_GROUP_GAP_COLS,
    CELL_W, MARGIN_X,
    show List.range 10 = [0, 1, 2, 3, 4, 5, 6, 7, 8, 9] from rfl,
    show List.range 5 = [0, 1, 2, 3, 4] from rfl,
    List.flatMap_cons, List.flatMap_nil, List.map_cons, List.map_nil,
    List.append_nil, List.cons_append, List.nil_append,
    List.cons.injEq, Prim.hole.injEq, and_true, eq_self_iff_true, true_and]
  norm_num
  omega

/-- The x-coordinates of the rail holes of one row, in order. -/
lemma railX_eq (columns : ℕ) (y : ℤ) :
    railX columns y =
      [48 + ((columns : ℤ) * 18 - 1062) / 2 + 18, 48 + ((columns : ℤ) * 18 - 1062) / 2 + 36,
       48 + ((columns : ℤ) * 18 - 1062) / 2 + 54, 48 + ((columns : ℤ) * 18 - 1062) / 2 + 72,
       48 + ((columns : ℤ) * 18 - 1062) / 2 + 90, 48 + ((columns : ℤ) * 18 - 1062) / 2 + 126,
       48 + ((columns : ℤ) * 18 - 1062) / 2 + 144, 48 + ((columns : ℤ) * 18 - 1062) / 2 + 162,
       48 + ((columns : ℤ) * 18 - 1062) / 2 + 180, 48 + ((columns : ℤ) * 18 - 1062) / 2 + 198,
       48 + ((columns : ℤ) * 18 - 1062) / 2 + 234, 48 + ((columns : ℤ) * 18 - 1062) / 2 + 252,
       48 + ((columns : ℤ) * 18 - 1062) / 2 + 270, 48 + ((columns : ℤ) * 18 - 1062) / 2 + 288,
       48 + ((columns : ℤ) * 18 - 1062) / 2 + 306, 48 + ((columns : ℤ) * 18 - 1062) / 2 + 342,
       48 + ((columns : ℤ) * 18 - 1062) / 2 + 360, 48 + ((columns : ℤ) * 18 - 1062) / 2 + 378,
       48 + ((columns : ℤ) * 18 - 1062) / 2 + 396, 48 + ((columns : ℤ) * 18 - 1062) / 2 + 414,
       48 + ((columns : ℤ) * 18 - 1062) / 2 + 450, 48 + ((columns : ℤ) * 18 - 1062) / 2 + 468,
       48 + ((columns : ℤ) * 18 - 1062) / 2 + 486, 48 + ((columns : ℤ) * 18 - 1062) / 2 + 504,
       48 + ((columns : ℤ) * 18 - 1062) / 2 + 522, 48 + ((columns : ℤ) * 18 - 1062) / 2 + 558,
       48 + ((columns : ℤ) * 18 - 1062) / 2 + 576, 48 + ((columns : ℤ) * 18 - 1062) / 2 + 594,
       48 + ((columns : ℤ) * 18 - 1062) / 2 + 612, 48 + ((columns : ℤ) * 18 - 1062) / 2 + 630,
       48 + ((columns : ℤ) * 18 - 1062) / 2 + 666, 48 + ((columns : ℤ) * 18 - 1062) / 2 + 684,
       48 + ((columns : ℤ) * 18 - 1062) / 2 + 702, 48 + ((columns : ℤ) * 18 - 1062) / 2 + 720,
       48 + ((columns : ℤ) * 18 - 1062) / 2 + 738, 48 + ((columns : ℤ) * 18 - 1062) / 2 + 774,
       48 + ((columns : ℤ) * 18 - 1062) / 2 + 792, 48 + ((columns : ℤ) * 18 - 1062) / 2 + 810,
       48 + ((columns : ℤ) * 18 - 1062) / 2 + 828, 48 + ((columns : ℤ) * 18 - 1062) / 2 + 846,
       48 + ((columns : ℤ) * 18 - 1062) / 2 + 882, 48 + ((columns : ℤ) * 18 - 1062) / 2 + 900,
       48 + ((columns : ℤ) * 18 - 1062) / 2 + 918, 48 + ((columns : ℤ) * 18 - 1062) / 2 + 936,
       48 + ((columns : ℤ) * 18 - 1062) / 2 + 954, 48 + ((columns : ℤ) * 18 - 1062) / 2 + 990,
       48 + ((columns : ℤ) * 18 - 1062) / 2 + 1008, 48 + ((columns : ℤ) * 18 - 1062) / 2 + 1026,
       48 + ((columns : ℤ) * 18 - 1062) / 2 + 1044, 48 + ((columns : ℤ) * 18 - 1062) / 2 + 1062] := by
  unfold railX
  rw [draw_grouped_eq]
  rfl

-- Claim theorems.

/-- C1 (corrected): `pad_to_coords` raises the invalid-pad error exactly when
the normalized pad is empty, its column part is not parseable as an integer,
or its row letter is not among the 10 labels A–J; the column range
`[1, columns]` is never checked.  In particular `"K1"` raises, but `"A0"`
resolves without error, to the coordinates of column 0. -/
theorem c1_invalid_pad_amended :
    (∀ pad : List ℕ,
      pad_to_coords pad = none ↔
        (pyUpper (pyStrip pad) = [] ∨
          ∃ r rest, pyUpper (pyStrip pad) = r :: rest ∧
            (pyInt? rest = none ∨ ROW_INDEX r = none)))
    ∧ pad_to_coords (codes "K1") = none
    ∧ pad_to_coords (codes "A0") = some (col_to_x 0, middle_row_y 0 true) := by
  refine ⟨fun pad => ?_, by decide, by decide⟩
  unfold pad_to_coords pad_resolve
  cases hp : pyUpper (pyStrip pad) with
  | nil => simp
  | cons r rest =>
    cases hi : pyInt? rest with
    | none =>
      simp only [hi]
      simp only [List.cons.injEq, reduceCtorEq, false_or, true_iff]
      exact ⟨r, rest, ⟨rfl, rfl⟩, Or.inl hi⟩
    | some col =>
      cases hr : ROW_INDEX r with
      | none =>
        simp only [hi, hr]
        simp only [List.cons.injEq, reduceCtorEq, false_or, true_iff]
        exact ⟨r, rest, ⟨rfl, rfl⟩, Or.inr hr⟩
      | some idx => simp [hi, hr]

/-- C1 counterexample: with columns = 63, `pad_to_coords("A0")` does not
raise invalid-pad as the claim requires; it resolves to `(48, 84)`. -/
theorem c1_invalid_pad_counterexample :
    pad_to_coords (codes "A0") = some (48, 84)
    ∧ pad_to_coords (codes "A0") ≠ none := by decide

/-- C2 (corrected): for columns = 63 the rendered board carries 12 column
numbers per rail line, the i-th from the left placed at the x-coordinate of
column `(i+1)*5 + NUMBER_X_OFFSET_COLS` (that is, at columns 4, 9, ..., 59 —
one column left of each multiple of 5), with displayed values 60, 55, ..., 5
in that left-to-right order. -/
theorem c2_column_numbers_amended :
    ((render_board 63 true true none).fst.map fun r => r.2.2.colNumbers)
      = some ((List.range 12).flatMap fun i =>
          [Prim.textRot (col_to_x ((((i + 1) * 5 : ℕ) : ℤ) + NUMBER_X_OFFSET_COLS)) 73
             (toString (60 - 5 * i)) 90 10 "#333",
           Prim.textRot (col_to_x ((((i + 1) * 5 : ℕ) : ℤ) + NUMBER_X_OFFSET_COLS)) 285
             (toString (60 - 5 * i)) 90 10 "#333"])
    ∧ ((render_board 63 true true none).fst.map fun r => r.2.2.colNumbers.length)
      = some 24 := by decide

/-- C2 counterexample: the leftmost column-number label of the 63-column board
sits at x = 120, which is the x-coordinate of column 4, not of column 5
(`col_to_x 5 = 138`) as the claim states. -/
theorem c2_column_numbers_counterexample :
    ((render_board 63 true true none).fst.map fun r => r.2.2.colNumbers.head?)
      = some (some (Prim.textRot 120 73 "60" 90 10 "#333"))
    ∧ (120 : ℤ) ≠ col_to_x 5 := by decide

/-- C3 (corrected): the first emitted rail hole sits one `CELL_W` to the right
of the computed block offset `MARGIN_X + (boardWidthPx - groupBlockWidthPx)/2`
and the last at 59 `CELL_W` beyond it; consequently the block is centered not
between `MARGIN_X` and `MARGIN_X + columns*CELL_W` but relative to the
middle-field hole span: its distance from the column-1 hole `col_to_x 1`
equals the distance of `col_to_x columns` from its last hole. -/
theorem c3_rail_centering_amended (columns : ℕ) (y : ℤ) :
    (draw_grouped_rail_holes columns y).head?
      = some (Prim.hole
          (MARGIN_X + ((columns : ℤ) * CELL_W - 59 * CELL_W) / 2 + CELL_W) y)
    ∧ (draw_grouped_rail_holes columns y).getLast?
      = some (Prim.hole
          (MARGIN_X + ((columns : ℤ) * CELL_W - 59 * CELL_W) / 2 + 59 * CELL_W) y)
    ∧ (MARGIN_X + ((columns : ℤ) * CELL_W - 59 * CELL_W) / 2 + CELL_W) - col_to_x 1
      = col_to_x (columns : ℤ)
        - (MARGIN_X + ((columns : ℤ) * CELL_W - 59 * CELL_W) / 2 + 59 * CELL_W) := by
  refine ⟨?_, ?_, ?_⟩
  · rw [draw_grouped_eq]; rfl
  · rw [draw_grouped_eq]; rfl
  · unfold col_to_x MARGIN_X CELL_W
    omega

/-- C3 counterexample: for columns = 63 the leftmost rail hole is 54 px from
the left field edge `MARGIN_X` while the rightmost is 36 px from the right
field edge `MARGIN_X + columns*CELL_W`; the two distances the claim requires
to be equal differ. -/
theorem c3_rail_centering_counterexample :
    (railX 63 39).getD 0 0 - MARGIN_X = 54
    ∧ (MARGIN_X + 63 * CELL_W) - (railX 63 39).getD 49 0 = 36
    ∧ (54 : ℤ) ≠ 36 := by decide

/-- C4: a render's output (and its outgoing `board_height` state) does not
depend on the incoming process state: `render_board` overwrites the global
before any draw function reads it, so two runs with the same board
configuration produce identical drawings and identical coordinates,
regardless of any previous render. -/
theorem c4_render_state_independent (columns : ℕ) (rail_top rail_bottom : Bool)
    (s₁ s₂ : Option ℤ) :
    render_board columns rail_top rail_bottom s₁
      = render_board columns rail_top rail_bottom s₂ := rfl

/-- C5 (corrected): for columns = 63 with both rails and one resistor between
"A5" and "E5", the document contains exactly one connector line, whose
endpoints are `pad_to_coords "A5" = (138, 84)` and
`pad_to_coords "E5" = (138, 156)`, exactly 63*10 middle-field holes, and
2*(2*50) = 200 rail holes (two rail blocks, each two rows of 50), not 2*50. -/
theorem c5_end_to_end_amended :
    (main_render ⟨63, true, true, [⟨"resistor", (codes "A5", codes "E5"), ""⟩]⟩).map
        (fun d => (countHoles d.2.2.1.middle,
                   countHoles d.2.2.1.railsTop + countHoles d.2.2.1.railsBottom,
                   (doc_prims d).filter is_connector))
      = some (63 * 10, 2 * (2 * 50), [Prim.line 138 84 138 156 "#9c642b" 3])
    ∧ pad_to_coords (codes "A5") = some (138, 84)
    ∧ pad_to_coords (codes "E5") = some (138, 156) := by decide

/-- C5 counterexample: the same render emits 200 rail holes, not the 2*50 the
claim states. -/
theorem c5_end_to_end_counterexample :
    (main_render ⟨63, true, true, [⟨"resistor", (codes "A5", codes "E5"), ""⟩]⟩).map
        (fun d => countHoles d.2.2.1.railsTop + countHoles d.2.2.1.railsBottom)
      = some 200
    ∧ (200 : ℕ) ≠ 2 * 50 := by decide

/-- C6: each rail row emits exactly 50 holes, all at the requested y;
consecutive holes are one `CELL_W` pitch apart inside a cluster and exactly
two pitches (one blank column) apart across the nine cluster boundaries, with
no gap after the final cluster; and no two holes of the row are closer than
one pitch. -/
theorem c6_rail_grouping (columns : ℕ) (y : ℤ) :
    (railX columns y).length = 50
    ∧ (∀ p ∈ draw_grouped_rail_holes columns y, ∃ x, p = Prim.hole x y)
    ∧ List.zipWith (fun a b => b - a) (railX columns y) (railX columns y).tail
      = [CELL_W, CELL_W, CELL_W, CELL_W, 2 * CELL_W,
         CELL_W, CELL_W, CELL_W, CELL_W, 2 * CELL_W,
         CELL_W, CELL_W, CELL_W, CELL_W, 2 * CELL_W,
         CELL_W, CELL_W, CELL_W, CELL_W, 2 * CELL_W,
         CELL_W, CELL_W, CELL_W, CELL_W, 2 * CELL_W,
         CELL_W, CELL_W, CELL_W, CELL_W, 2 * CELL_W,
         CELL_W, CELL_W, CELL_W, CELL_W, 2 * CELL_W,
         CELL_W, CELL_W, CELL_W, CELL_W, 2 * CELL_W,
         CELL_W, CELL_W, CELL_W, CELL_W, 2 * CELL_W,
         CELL_W, CELL_W, CELL_W, CELL_W]
    ∧ List.Pairwise (fun a b => a + CELL_W ≤ b) (railX columns y) := by
  refine ⟨?_, ?_, ?_, ?_⟩
  · rw [railX_eq]; rfl
  · intro p hp
    unfold draw_grouped_rail_holes at hp
    simp only [List.mem_flatMap, List.mem_range, List.mem_map] at hp
    obtain ⟨g, -, i, -, rfl⟩ := hp
    exact ⟨_, rfl⟩
  · rw [railX_eq]
    simp only [List.tail_cons, List.zipWith_cons_cons, List.zipWith_nil_right,
      List.cons.injEq, and_true, CELL_W]
    omega
  · haveI : IsTrans ℤ (fun a b : ℤ => a + CELL_W ≤ b) :=
      ⟨fun a b c hab hbc => by simp only [CELL_W] at hab hbc ⊢; omega⟩
    rw [← List.chain'_iff_pairwise, railX_eq]
    simp only [List.chain'_cons, List.chain'_singleton, and_true, CELL_W]
    omega

/-- C6 witness: the first hole of the 63-column rail row at y = 39 is a member
of the emitted list and is a hole at that y. -/
theorem c6_rail_grouping_witness :
    Prim.hole 102 39 ∈ draw_grouped_rail_holes 63 39
    ∧ ∃ x, Prim.hole 102 39 = Prim.hole x (39 : ℤ) :=
  ⟨by decide, (c6_rail_grouping 63 39).2.1 (Prim.hole 102 39) (by decide)⟩

/-- C7: `pad_to_coords` places "A1" and "F1" exactly 5 row pitches plus the
trench height apart in y, "A1" and "E1" exactly 4 row pitches apart, and all
three at the same x. -/
theorem c7_pad_row_offsets :
    pad_to_coords (codes "A1") = some (66, 84)
    ∧ pad_to_coords (codes "F1") = some (66, 196)
    ∧ pad_to_coords (codes "E1") = some (66, 156)
    ∧ (196 - 84 : ℤ) = 5 * CELL_H + TRENCH_H
    ∧ (156 - 84 : ℤ) = 4 * CELL_H := by decide

/-- C8 (corrected): the component loop skips, silently and without emitting
anything, every component whose case-lowered type is not "resistor"; a
component whose case-lowered type is "resistor" is rendered via
`draw_resistor` (whose invalid-pad failure propagates). -/
theorem c8_component_filter :
    (∀ (c : Component) (cs : List Component),
      py_lower c.type_ ≠ "resistor" → comp_svg (c :: cs) = comp_svg cs)
    ∧ (∀ (c : Component) (cs : List Component) (r : List Prim),
      py_lower c.type_ = "resistor" →
      draw_resistor c.pins.1 c.pins.2 c.value = some r →
      comp_svg (c :: cs) = (comp_svg cs).map fun t => r ++ t) := by
  constructor
  · intro c cs h
    simp only [comp_svg, if_neg h]
  · intro c cs r h hr
    simp only [comp_svg, if_pos h, hr]

/-- C8 counterexample: a component of type "Resistor" — a type different from
"resistor" — is not skipped: it is rendered. -/
theorem c8_component_filter_counterexample :
    comp_svg [⟨"Resistor", (codes "A5", codes "E5"), ""⟩]
      = some [Prim.line 138 84 138 156 "#9c642b" 3,
              Prim.text 138 110 "R" 11 "middle" "#333"]
    ∧ ("Resistor" : String) ≠ "resistor"
    ∧ comp_svg [⟨"Resistor", (codes "A5", codes "E5"), ""⟩] ≠ some [] := by decide

/-- C8 witness: a "led" component contributes nothing and raises nothing,
while a "resistor" component is rendered. -/
theorem c8_component_filter_witness :
    comp_svg [⟨"led", (codes "A1", codes "B1"), ""⟩] = some []
    ∧ comp_svg [⟨"resistor", (codes "A5", codes "E5"), ""⟩]
      = some [Prim.line 138 84 138 156 "#9c642b" 3,
              Prim.text 138 110 "R" 11 "middle" "#333"] := by
  constructor
  · rw [c8_component_filter.1 ⟨"led", (codes "A1", codes "B1"), ""⟩ [] (by decide)]
    rfl
  · rw [c8_component_filter.2 ⟨"resistor", (codes "A5", codes "E5"), ""⟩ []
      [Prim.line 138 84 138 156 "#9c642b" 3, Prim.text 138 110 "R" 11 "middle" "#333"]
      (by decide) (by decide)]
    rfl

/-- C9: the middle-field part (holes, trench, ticks) and the row-label part of
a render are identical whether or not the board has top rails (and regardless
of the process state): the source passes `top_rails=True` to `middle_row_y`
at every one of those call sites. -/
theorem c9_middle_independent_of_rail_top (columns : ℕ) (t₁ t₂ rb : Bool)
    (s₁ s₂ : Option ℤ) :
    ((render_board columns t₁ rb s₁).fst.map fun r => r.2.2.middle)
      = ((render_board columns t₂ rb s₂).fst.map fun r => r.2.2.middle)
    ∧ ((render_board columns t₁ rb s₁).fst.map fun r => r.2.2.rowLabels)
      = ((render_board columns t₂ rb s₂).fst.map fun r => r.2.2.rowLabels) := by
  cases t₁ <;> cases t₂ <;> cases rb <;> exact ⟨rfl, rfl⟩

/-- C10: pad identifiers are normalized before resolution: `pad_to_coords`
returns the same result on any pad string and on its stripped, uppercased
form, so "a5", " A5 " and "A5" resolve identically. -/
theorem c10_pad_normalization (pad : List ℕ) :
    pad_to_coords pad = pad_to_coords (pyUpper (pyStrip pad)) := by
  unfold pad_to_coords
  rw [pyNorm_idem]
